import Mathlib

/-!
Verification of the variant enrichment and scoring pipeline of the
genetic-health-platform repository (DNA-Analysis-System).

The Python modules `algorithms/scientific_algorithms.py`,
`algorithms/ml_algorithms.py`, `clinical/clinical_validation.py` and
`dna_analyzer.py` are shallowly embedded below.  Python floats are modelled
as exact rationals (ℚ), Python dicts with `.get(key, default)` reads are
modelled as structures whose fields carry the corresponding defaults, and
Python dicts used as key→value maps are modelled as association lists with
dict-style insertion.  The standard normal CDF (`scipy.stats.norm.cdf`) and
`math.sqrt`, which are irrational-valued, are abstracted as function
parameters, so every theorem about the risk-score record holds for any
realisation of those two functions.
-/

namespace DnaAnalysis

/-! ## `scientific_algorithms.py`: polygenic risk score -/

/-- A variant dict as consumed by `calculate_polygenic_risk_score`; each
field default is the `.get` default used by the Python code. -/
structure PrsVariant where
  rsid : String := ""
  effect_size : ℚ := 0
  p_value : ℚ := 1
  genotype : String := ""
deriving Repr, DecidableEq

/-- Result record `PolygenicRiskScore`. -/
structure PolygenicRiskScore where
  trait : String
  score : ℚ
  percentile : ℚ
  risk_category : String
  confidence_interval : ℚ × ℚ
deriving Repr, DecidableEq

/-- `self.population_weights` with the `.get(population, 1.0)` default. -/
def population_weights (population : String) : ℚ :=
  if population = "European" then 1
  else if population = "African" then 4/5
  else if population = "Asian" then 9/10
  else if population = "American" then 17/20
  else if population = "Mixed" then 3/4
  else 1

/-- `_get_trait_weights(trait).get(rsid, 1.0)`. -/
def trait_weights (trait rsid : String) : ℚ :=
  if trait = "cardiovascular_disease" then
    if rsid = "rs1801133" then 3/2
    else if rsid = "rs429358" then 2
    else if rsid = "rs7412" then 9/5
    else 1
  else if trait = "alzheimer_disease" then
    if rsid = "rs429358" then 3
    else if rsid = "rs7412" then 5/2
    else 1
  else if trait = "diabetes" then
    if rsid = "rs1801133" then 6/5
    else 1
  else 1

/-- `_get_genotype_weight`: fixed lookup table, default 0.0. -/
def genotype_weight (genotype : String) : ℚ :=
  if genotype = "AA" then 0
  else if genotype = "AT" then 1/2
  else if genotype = "TT" then 1
  else if genotype = "AC" then 1/2
  else if genotype = "CC" then 1
  else if genotype = "AG" then 1/2
  else if genotype = "GG" then 1
  else if genotype = "TC" then 1/2
  else if genotype = "TG" then 1/2
  else if genotype = "CG" then 1/2
  else if genotype = "--" then 0
  else 0

/-- `_get_pvalue_weight`: step function on the p-value. -/
def pvalue_weight (p : ℚ) : ℚ :=
  if p < 1e-8 then 1
  else if p < 1e-5 then 4/5
  else if p < 1e-3 then 3/5
  else if p < 1e-2 then 2/5
  else if p < 1/20 then 1/5
  else 0

/-- One loop iteration of `calculate_polygenic_risk_score`: the accumulator
is the pair `(total_score, total_weight)`; variants with `p_value > 0.05`
are skipped by the `continue`. -/
def prs_step (trait population : String) (acc : ℚ × ℚ) (v : PrsVariant) : ℚ × ℚ :=
  if v.p_value > 1/20 then acc
  else
    (acc.1 + v.effect_size * genotype_weight v.genotype * trait_weights trait v.rsid *
        population_weights population * pvalue_weight v.p_value,
      acc.2 + trait_weights trait v.rsid * pvalue_weight v.p_value)

/-- The `(total_score, total_weight)` pair accumulated over the variant list. -/
def prs_totals (variants : List PrsVariant) (trait population : String) : ℚ × ℚ :=
  variants.foldl (prs_step trait population) (0, 0)

/-- `_calculate_percentile`'s per-trait mean table (default 0.1). -/
def trait_mean (trait : String) : ℚ :=
  if trait = "cardiovascular_disease" then 3/20
  else if trait = "alzheimer_disease" then 2/25
  else if trait = "diabetes" then 3/25
  else 1/10

/-- `_calculate_percentile`'s per-trait std table (default 0.05). -/
def trait_std (trait : String) : ℚ :=
  if trait = "cardiovascular_disease" then 1/20
  else if trait = "alzheimer_disease" then 3/100
  else if trait = "diabetes" then 1/25
  else 1/20

/-- `_calculate_percentile`: z-score through the (abstracted) standard
normal CDF, times 100, clamped to [0, 100].  The `population` argument is
accepted and ignored, exactly as in the source. -/
def calc_percentile (cdf : ℚ → ℚ) (score : ℚ) (trait population : String) : ℚ :=
  max 0 (min 100 (cdf ((score - trait_mean trait) / trait_std trait) * 100))

/-- `_determine_risk_category`: thresholds on the percentile. -/
def determine_risk_category (percentile : ℚ) : String :=
  if percentile ≥ 95 then "Çok Yüksek Risk"
  else if percentile ≥ 80 then "Yüksek Risk"
  else if percentile ≥ 60 then "Orta-Yüksek Risk"
  else if percentile ≥ 40 then "Orta Risk"
  else if percentile ≥ 20 then "Orta-Düşük Risk"
  else "Düşük Risk"

/-- `_calculate_confidence_interval` with `math.sqrt` abstracted. -/
def calc_confidence_interval (sqrtQ : ℚ → ℚ) (score weight : ℚ) : ℚ × ℚ :=
  (max 0 (score - 196/100 * (1 / sqrtQ (max weight 1))),
   min 1 (score + 196/100 * (1 / sqrtQ (max weight 1))))

/-- `calculate_polygenic_risk_score`, with the normal CDF and square root
abstracted as parameters. -/
def calculate_polygenic_risk_score (cdf sqrtQ : ℚ → ℚ) (variants : List PrsVariant)
    (trait : String) (population : String) : PolygenicRiskScore :=
  let t := prs_totals variants trait population
  let normalized_score := if t.2 > 0 then t.1 / t.2 else 0
  let percentile := calc_percentile cdf normalized_score trait population
  { trait := trait
    score := normalized_score
    percentile := percentile
    risk_category := determine_risk_category percentile
    confidence_interval := calc_confidence_interval sqrtQ normalized_score t.2 }

/-- The single-variant input of the spec's concrete scenario. -/
def mthfr_variant : PrsVariant :=
  { rsid := "rs1801133", effect_size := 3/20, p_value := 1.2e-8, genotype := "GG" }

/-! ## Claims C1 and C3 -/

/-- C1 counterexample: on the rs1801133 scenario the code does NOT use
pValueWeight 1.0 with accumulated contribution 0.225 and totalWeight 1.5:
`1.2e-8 < 1e-8` is false, so the p-value weight is 0.8. -/
theorem c1_counterexample :
    ¬ (pvalue_weight (1.2e-8 : ℚ) = 1 ∧
        prs_totals [mthfr_variant] "cardiovascular_disease" "European" = (9/40, 3/2)) := by
  intro h
  have h1 := h.1
  norm_num [pvalue_weight] at h1

/-- C1 amended: on the single-variant rs1801133/GG input with trait
cardiovascular_disease and population European, the code uses pValueWeight
0.8, genotypeWeight 1.0 and traitVariantWeight 1.5, accumulates
contribution 0.18 and totalWeight 1.2, and returns normalized score 0.15. -/
theorem c1_amended :
    pvalue_weight (1.2e-8 : ℚ) = 4/5 ∧
    genotype_weight "GG" = 1 ∧
    trait_weights "cardiovascular_disease" "rs1801133" = 3/2 ∧
    prs_totals [mthfr_variant] "cardiovascular_disease" "European" = (9/50, 6/5) ∧
    ∀ cdf sqrtQ : ℚ → ℚ,
      (calculate_polygenic_risk_score cdf sqrtQ [mthfr_variant]
          "cardiovascular_disease" "European").score = 3/20 := by
  have htot : prs_totals [mthfr_variant] "cardiovascular_disease" "European" = (9/50, 6/5) := by
    simp only [prs_totals, prs_step, mthfr_variant, genotype_weight, trait_weights,
      population_weights, pvalue_weight, String.reduceEq, reduceIte, List.foldl]
    norm_num
  refine ⟨by norm_num [pvalue_weight], rfl, rfl, htot, ?_⟩
  intro cdf sqrtQ
  simp only [calculate_polygenic_risk_score, htot]
  norm_num

/-- C3 counterexample: the claim says the reciprocal heterozygous genotype
"TA" weighs 0.5, but the lookup table has no "TA" key, so the weight is the
0.0 default. -/
theorem c3_counterexample : genotype_weight "TA" ≠ 1/2 := by
  simp only [genotype_weight, String.reduceEq, reduceIte]
  norm_num

/-- C3 amended: the genotype weight table is exactly AA→0, TT/CC/GG→1,
AT/AC/AG/TC/TG/CG→0.5, "--"→0, and EVERY other string — including the
reciprocal two-letter spellings such as "TA", "CA", "GA", "CT", "GT",
"GC" — gets the default weight 0.0. -/
theorem c3_amended :
    (∀ g : String,
        g ∉ (["AA", "AT", "TT", "AC", "CC", "AG", "GG", "TC", "TG", "CG", "--"] : List String) →
        genotype_weight g = 0) ∧
    genotype_weight "AA" = 0 ∧ genotype_weight "AT" = 1/2 ∧ genotype_weight "TT" = 1 ∧
    genotype_weight "AC" = 1/2 ∧ genotype_weight "CC" = 1 ∧ genotype_weight "AG" = 1/2 ∧
    genotype_weight "GG" = 1 ∧ genotype_weight "TC" = 1/2 ∧ genotype_weight "TG" = 1/2 ∧
    genotype_weight "CG" = 1/2 ∧ genotype_weight "--" = 0 := by
  refine ⟨?_, rfl, rfl, rfl, rfl, rfl, rfl, rfl, rfl, rfl, rfl, rfl⟩
  intro g hg
  simp only [List.mem_cons, List.not_mem_nil, or_false, not_or] at hg
  obtain ⟨h1, h2, h3, h4, h5, h6, h7, h8, h9, h10, h11⟩ := hg
  simp [genotype_weight, h1, h2, h3, h4, h5, h6, h7, h8, h9, h10, h11]

/-- Witness for `c3_amended` at the concrete unlisted genotype "TA". -/
theorem c3_amended_witness :
    ("TA" : String) ∉ (["AA", "AT", "TT", "AC", "CC", "AG", "GG", "TC", "TG", "CG", "--"] : List String) ∧
    genotype_weight "TA" = 0 :=
  ⟨by decide, c3_amended.1 "TA" (by decide)⟩

/-! ## Claims C4 and C5: filter invariant and effect-size monotonicity -/

/-- Score contribution of a single variant (0 when filtered out). -/
def prs_contrib (trait population : String) (v : PrsVariant) : ℚ :=
  if v.p_value > 1/20 then 0
  else v.effect_size * genotype_weight v.genotype * trait_weights trait v.rsid *
    population_weights population * pvalue_weight v.p_value

/-- Weight contribution of a single variant (0 when filtered out). -/
def prs_wcontrib (trait : String) (v : PrsVariant) : ℚ :=
  if v.p_value > 1/20 then 0
  else trait_weights trait v.rsid * pvalue_weight v.p_value

theorem prs_step_eq (trait population : String) (acc : ℚ × ℚ) (v : PrsVariant) :
    prs_step trait population acc v =
      (acc.1 + prs_contrib trait population v, acc.2 + prs_wcontrib trait v) := by
  unfold prs_step prs_contrib prs_wcontrib
  split_ifs with h <;> simp

theorem prs_foldl_shift (trait population : String) (l : List PrsVariant) :
    ∀ acc : ℚ × ℚ,
      l.foldl (prs_step trait population) acc =
        (acc.1 + ((l.map (prs_contrib trait population)).sum),
          acc.2 + ((l.map (prs_wcontrib trait)).sum)) := by
  induction l with
  | nil => intro acc; simp
  | cons v tl ih =>
    intro acc
    simp only [List.foldl_cons, List.map_cons, List.sum_cons, prs_step_eq, ih, add_assoc]

theorem prs_totals_eq (l : List PrsVariant) (trait population : String) :
    prs_totals l trait population =
      ((l.map (prs_contrib trait population)).sum, (l.map (prs_wcontrib trait)).sum) := by
  simpa [prs_totals] using prs_foldl_shift trait population l (0, 0)

theorem prs_score_eq (cdf sqrtQ : ℚ → ℚ) (l : List PrsVariant) (trait population : String) :
    (calculate_polygenic_risk_score cdf sqrtQ l trait population).score =
      if (prs_totals l trait population).2 > 0
      then (prs_totals l trait population).1 / (prs_totals l trait population).2
      else 0 := rfl

set_option maxHeartbeats 1000000 in
theorem genotype_weight_nonneg (g : String) : 0 ≤ genotype_weight g := by
  unfold genotype_weight
  split_ifs <;> norm_num

set_option maxHeartbeats 1000000 in
theorem trait_weights_nonneg (t r : String) : 0 ≤ trait_weights t r := by
  unfold trait_weights
  split_ifs <;> norm_num

set_option maxHeartbeats 1000000 in
theorem population_weights_nonneg (p : String) : 0 ≤ population_weights p := by
  unfold population_weights
  split_ifs <;> norm_num

set_option maxHeartbeats 1000000 in
theorem pvalue_weight_nonneg (p : ℚ) : 0 ≤ pvalue_weight p := by
  unfold pvalue_weight
  split_ifs <;> norm_num

theorem prs_wcontrib_nonneg (t : String) (v : PrsVariant) : 0 ≤ prs_wcontrib t v := by
  unfold prs_wcontrib
  split_ifs with h
  · exact le_refl 0
  · exact mul_nonneg (trait_weights_nonneg t v.rsid) (pvalue_weight_nonneg v.p_value)

/-- C4: a variant with p_value > 0.05 has zero influence on the whole
returned PolygenicRiskScore record: inserting it anywhere in the list
changes neither score, percentile, risk category nor confidence interval,
for every realisation of the normal CDF and square root. -/
theorem c4_filtered_variant_no_influence (cdf sqrtQ : ℚ → ℚ) (l1 l2 : List PrsVariant)
    (v : PrsVariant) (trait population : String) (h : v.p_value > 1/20) :
    calculate_polygenic_risk_score cdf sqrtQ (l1 ++ v :: l2) trait population =
      calculate_polygenic_risk_score cdf sqrtQ (l1 ++ l2) trait population := by
  have hc : prs_contrib trait population v = 0 := by
    unfold prs_contrib; rw [if_pos h]
  have hwc : prs_wcontrib trait v = 0 := by
    unfold prs_wcontrib; rw [if_pos h]
  have hkey : prs_totals (l1 ++ v :: l2) trait population =
      prs_totals (l1 ++ l2) trait population := by
    simp [prs_totals_eq, hc, hwc]
  unfold calculate_polygenic_risk_score
  rw [hkey]

/-- Witness for `c4_filtered_variant_no_influence`: injecting a variant
with p-value 0.1 into the concrete scenario list changes nothing. -/
theorem c4_witness :
    (({ rsid := "rsX", p_value := 1/10 } : PrsVariant)).p_value > 1/20 ∧
    calculate_polygenic_risk_score (fun _ => 1/2) (fun _ => 1)
        ([] ++ ({ rsid := "rsX", p_value := 1/10 } : PrsVariant) :: [mthfr_variant])
        "cardiovascular_disease" "European" =
      calculate_polygenic_risk_score (fun _ => 1/2) (fun _ => 1) ([] ++ [mthfr_variant])
        "cardiovascular_disease" "European" :=
  ⟨by norm_num,
    c4_filtered_variant_no_influence (fun _ => 1/2) (fun _ => 1) [] [mthfr_variant]
      { rsid := "rsX", p_value := 1/10 } "cardiovascular_disease" "European" (by norm_num)⟩

/-- C5: raising the effect size of a contributing variant (p_value ≤ 0.05)
never decreases the normalized score, and leaves the accumulated total
weight unchanged. -/
theorem c5_effect_size_monotone (cdf sqrtQ : ℚ → ℚ) (l1 l2 : List PrsVariant)
    (v : PrsVariant) (e : ℚ) (trait population : String)
    (hp : v.p_value ≤ 1/20) (he : v.effect_size ≤ e) :
    (calculate_polygenic_risk_score cdf sqrtQ (l1 ++ v :: l2) trait population).score ≤
      (calculate_polygenic_risk_score cdf sqrtQ
        (l1 ++ { v with effect_size := e } :: l2) trait population).score ∧
    (prs_totals (l1 ++ { v with effect_size := e } :: l2) trait population).2 =
      (prs_totals (l1 ++ v :: l2) trait population).2 := by
  have hnotgt : ¬ v.p_value > 1/20 := not_lt.mpr hp
  have hw : (prs_totals (l1 ++ { v with effect_size := e } :: l2) trait population).2 =
      (prs_totals (l1 ++ v :: l2) trait population).2 := by
    simp [prs_totals_eq, prs_wcontrib]
  refine ⟨?_, hw⟩
  have hcoef : 0 ≤ genotype_weight v.genotype * trait_weights trait v.rsid *
      population_weights population * pvalue_weight v.p_value :=
    mul_nonneg (mul_nonneg (mul_nonneg (genotype_weight_nonneg _)
      (trait_weights_nonneg _ _)) (population_weights_nonneg _)) (pvalue_weight_nonneg _)
  have hscore : (prs_totals (l1 ++ v :: l2) trait population).1 ≤
      (prs_totals (l1 ++ { v with effect_size := e } :: l2) trait population).1 := by
    simp only [prs_totals_eq, List.map_append, List.map_cons, List.sum_append, List.sum_cons]
    have hc : prs_contrib trait population v ≤
        prs_contrib trait population { v with effect_size := e } := by
      unfold prs_contrib
      simp only [hnotgt, if_false]
      have := mul_le_mul_of_nonneg_right he hcoef
      calc v.effect_size * genotype_weight v.genotype * trait_weights trait v.rsid *
            population_weights population * pvalue_weight v.p_value
          = v.effect_size * (genotype_weight v.genotype * trait_weights trait v.rsid *
            population_weights population * pvalue_weight v.p_value) := by ring
        _ ≤ e * (genotype_weight v.genotype * trait_weights trait v.rsid *
            population_weights population * pvalue_weight v.p_value) := this
        _ = e * genotype_weight v.genotype * trait_weights trait v.rsid *
            population_weights population * pvalue_weight v.p_value := by ring
    linarith
  rw [prs_score_eq, prs_score_eq, hw]
  by_cases hpos : (prs_totals (l1 ++ v :: l2) trait population).2 > 0
  · rw [if_pos hpos, if_pos hpos]
    exact (div_le_div_iff_of_pos_right hpos).mpr hscore
  · rw [if_neg hpos, if_neg hpos]

/-! ## `clinical_validation.py`: ACMG classifier -/

/-- A variant dict as consumed by `classify_variant_acmg`; optional fields
model missing dict keys, numeric defaults are the `.get` defaults of the
Python helpers (`allele_frequency` 0, `cadd_score` 0, `sift_score` 1,
`prevalence_in_affected` 0, boolean flags False).  The two keys of the
nested `functional_evidence` dict are flattened into two boolean fields. -/
structure AcmgVariant where
  rsid : Option String := none
  gene : Option String := none
  variant_type : Option String := none
  same_as_pathogenic : Bool := false
  de_novo : Bool := false
  prevalence_in_affected : ℚ := 0
  allele_frequency : ℚ := 0
  cadd_score : ℚ := 0
  sift_score : ℚ := 1
  func_damaging : Bool := false
  func_benign : Bool := false
deriving Repr, DecidableEq

/-- Result record `ACMGClassification` (`criteria_scores` dict flattened
into the two integer fields). -/
structure ACMGClassification where
  variant_id : String
  gene : String
  classification : String
  criteria_met : List String
  pathogenic_score : Int
  benign_score : Int
  total_score : Int
  confidence : String
  clinical_action : String
deriving Repr, DecidableEq

/-- `self.acmg_criteria['lof_genes']`. -/
def lof_genes : List String := ["MTHFR", "BRCA1", "BRCA2", "TP53"]

/-- `self.acmg_criteria['hotspot_genes']`. -/
def hotspot_genes : List String := ["TP53", "KRAS", "BRAF"]

/-- `self.acmg_criteria['functional_evidence']`. -/
def functional_evidence_genes : List String := ["MTHFR", "CYP2C9", "CYP2C19"]

/-- `_is_lof_variant`. -/
def is_lof_variant (v : AcmgVariant) : Prop :=
  v.variant_type = some "nonsense" ∨ v.variant_type = some "frameshift"

instance (v : AcmgVariant) : Decidable (is_lof_variant v) := by
  unfold is_lof_variant; infer_instance

/-- `_is_lof_disease_mechanism` (a missing gene is never in the list). -/
def is_lof_disease_mechanism (g : Option String) : Prop :=
  g ∈ lof_genes.map some

instance (g : Option String) : Decidable (is_lof_disease_mechanism g) := by
  unfold is_lof_disease_mechanism; infer_instance

/-- `_has_damaging_functional_evidence`. -/
def has_damaging_functional_evidence (v : AcmgVariant) : Prop :=
  v.gene ∈ functional_evidence_genes.map some ∧ v.func_damaging = true

instance (v : AcmgVariant) : Decidable (has_damaging_functional_evidence v) := by
  unfold has_damaging_functional_evidence; infer_instance

/-- Boolean character-list prefix test (used by the substring test). -/
def chars_le : List Char → List Char → Bool
  | [], _ => true
  | _ :: _, [] => false
  | x :: xs, y :: ys => x == y && chars_le xs ys

/-- Boolean substring occurrence test, modelling Python's `p in s`. -/
def chars_sub (a : List Char) : List Char → Bool
  | [] => chars_le a []
  | y :: ys => chars_le a (y :: ys) || chars_sub a ys

/-- Python's `needle in haystack` on strings. -/
def str_in (needle haystack : String) : Bool := chars_sub needle.data haystack.data

/-- `_phenotype_matches_gene`'s lookup table and any-substring check. -/
def phenotype_matches_gene (g : Option String) (ph : String) : Bool :=
  match g with
  | some "MTHFR" =>
      str_in "cardiovascular" ph.toLower || str_in "thrombosis" ph.toLower ||
        str_in "neural tube defects" ph.toLower
  | some "APOE" =>
      str_in "alzheimer" ph.toLower || str_in "dementia" ph.toLower ||
        str_in "cardiovascular" ph.toLower
  | some "CYP2C9" =>
      str_in "warfarin" ph.toLower || str_in "bleeding" ph.toLower ||
        str_in "anticoagulation" ph.toLower
  | _ => false

/-- The PP4 guard `if phenotype and self._phenotype_matches_gene(...)`,
including Python's falsiness of `None` and of the empty string. -/
def pp4_fires (ph : Option String) (g : Option String) : Bool :=
  match ph with
  | none => false
  | some s => (!(s == "")) && phenotype_matches_gene g s

/-- `_determine_classification`: thresholds on the net score. -/
def determine_classification (total_score : Int) : String × String × String :=
  if total_score ≥ 8 then ("Pathogenic", "High", "Immediate clinical action required")
  else if total_score ≥ 6 then ("Likely Pathogenic", "Moderate", "Consider clinical action")
  else if total_score ≥ 2 then ("VUS", "Low", "Monitor and re-evaluate")
  else if total_score ≤ -2 then ("Likely Benign", "Low", "No clinical action needed")
  else ("Benign", "High", "No clinical significance")

/-- `classify_variant_acmg`: point accumulation over the ACMG criteria in
source order, then threshold classification.  Always total. -/
def classify_variant_acmg (v : AcmgVariant) (phenotype : Option String) : ACMGClassification :=
  let pvs1 := is_lof_variant v ∧ is_lof_disease_mechanism v.gene
  let ps1 := v.same_as_pathogenic = true
  let ps2 := v.de_novo = true
  let ps3 := has_damaging_functional_evidence v
  let ps4 := v.prevalence_in_affected > 1/10
  let pm1 := v.gene ∈ hotspot_genes.map some
  let pm2 := v.allele_frequency < 1/1000
  let pp3 := v.cadd_score > 15 ∨ v.sift_score < 1/20
  let pp4 := pp4_fires phenotype v.gene = true
  let ba1 := v.allele_frequency > 1/20
  let bs1 := v.allele_frequency > 1/10
  let bs2 := v.func_benign = true
  let bp4 := v.cadd_score < 5 ∧ v.sift_score > 1/2
  let pathogenic_score : Int :=
    (if pvs1 then 4 else 0) + (if ps1 then 4 else 0) + (if ps2 then 4 else 0) +
      (if ps3 then 4 else 0) + (if ps4 then 4 else 0) + (if pm1 then 2 else 0) +
      (if pm2 then 2 else 0) + (if pp3 then 1 else 0) + (if pp4 then 1 else 0)
  let benign_score : Int :=
    (if ba1 then 4 else 0) + (if bs1 then 2 else 0) + (if bs2 then 2 else 0) +
      (if bp4 then 1 else 0)
  let criteria_met : List String :=
    (if pvs1 then ["PVS1"] else []) ++ (if ps1 then ["PS1"] else []) ++
      (if ps2 then ["PS2"] else []) ++ (if ps3 then ["PS3"] else []) ++
      (if ps4 then ["PS4"] else []) ++ (if pm1 then ["PM1"] else []) ++
      (if pm2 then ["PM2"] else []) ++ (if pp3 then ["PP3"] else []) ++
      (if pp4 then ["PP4"] else []) ++ (if ba1 then ["BA1"] else []) ++
      (if bs1 then ["BS1"] else []) ++ (if bs2 then ["BS2"] else []) ++
      (if bp4 then ["BP4"] else [])
  let total_score := pathogenic_score - benign_score
  let c := determine_classification total_score
  { variant_id := v.rsid.getD "Unknown"
    gene := v.gene.getD "Unknown"
    classification := c.1
    criteria_met := criteria_met
    pathogenic_score := pathogenic_score
    benign_score := benign_score
    total_score := total_score
    confidence := c.2.1
    clinical_action := c.2.2 }

/-- The variant of the spec's second concrete scenario: only
`allele_frequency = 0.32` is present, every other field is defaulted. -/
def freq_only_variant : AcmgVariant := { allele_frequency := 8/25 }

/-- The fully-defaulted variant dict (every field missing). -/
def default_acmg_variant : AcmgVariant := {}

/-- A variant firing PVS1, PS2, PS3, PM2 and PP3 (net score 15). -/
def lof_denovo_variant : AcmgVariant :=
  { gene := some "MTHFR", variant_type := some "nonsense", de_novo := true,
    func_damaging := true, allele_frequency := 1/2000, cadd_score := 20 }

theorem classify_classification_eq (v : AcmgVariant) (ph : Option String) :
    (classify_variant_acmg v ph).classification =
      (determine_classification (classify_variant_acmg v ph).total_score).1 := rfl

theorem classify_confidence_eq (v : AcmgVariant) (ph : Option String) :
    (classify_variant_acmg v ph).confidence =
      (determine_classification (classify_variant_acmg v ph).total_score).2.1 := rfl

theorem classify_action_eq (v : AcmgVariant) (ph : Option String) :
    (classify_variant_acmg v ph).clinical_action =
      (determine_classification (classify_variant_acmg v ph).total_score).2.2 := rfl

theorem determine_classification_of_ge8 (t : Int) (h : t ≥ 8) :
    determine_classification t = ("Pathogenic", "High", "Immediate clinical action required") := by
  unfold determine_classification
  rw [if_pos h]

theorem determine_classification_of_le_neg2 (t : Int) (h : t ≤ -2) :
    determine_classification t = ("Likely Benign", "Low", "No clinical action needed") := by
  unfold determine_classification
  rw [if_neg (by omega), if_neg (by omega), if_neg (by omega), if_pos h]

/-! ## Claims C2, C6 and C10 -/

/-- C2 counterexample: on the variant whose only field is
allele_frequency = 0.32, BA1 is NOT the only firing criterion (BS1 and BP4
fire too, since 0.32 > 0.1 and the cadd/sift defaults 0/1 satisfy BP4), so
the claimed benignScore 4 / Benign / High outcome is false. -/
theorem c2_counterexample :
    ¬ ((classify_variant_acmg freq_only_variant none).criteria_met = ["BA1"] ∧
        (classify_variant_acmg freq_only_variant none).benign_score = 4 ∧
        (classify_variant_acmg freq_only_variant none).total_score = -4 ∧
        (classify_variant_acmg freq_only_variant none).classification = "Benign" ∧
        (classify_variant_acmg freq_only_variant none).confidence = "High") := by
  have hc : (classify_variant_acmg freq_only_variant none).criteria_met =
      ["BA1", "BS1", "BP4"] := by
    simp only [classify_variant_acmg, freq_only_variant, is_lof_variant,
      is_lof_disease_mechanism, has_damaging_functional_evidence, pp4_fires,
      determine_classification, lof_genes, hotspot_genes, functional_evidence_genes,
      String.reduceEq, reduceIte, reduceCtorEq, List.map_cons, List.map_nil,
      List.mem_cons, List.not_mem_nil, or_false, false_or, false_and, and_false, if_false]
    norm_num
  intro h
  rw [hc] at h
  exact absurd h.1 (by decide)

/-- C2 amended: on the allele_frequency = 0.32 variant the criteria BA1,
BS1 and BP4 fire, giving benignScore 7, pathogenicScore 0, netScore -7,
and the returned classification is "Likely Benign" with confidence "Low". -/
theorem c2_amended :
    (classify_variant_acmg freq_only_variant none).criteria_met = ["BA1", "BS1", "BP4"] ∧
    (classify_variant_acmg freq_only_variant none).benign_score = 7 ∧
    (classify_variant_acmg freq_only_variant none).pathogenic_score = 0 ∧
    (classify_variant_acmg freq_only_variant none).total_score = -7 ∧
    (classify_variant_acmg freq_only_variant none).classification = "Likely Benign" ∧
    (classify_variant_acmg freq_only_variant none).confidence = "Low" := by
  simp only [classify_variant_acmg, freq_only_variant, is_lof_variant,
    is_lof_disease_mechanism, has_damaging_functional_evidence, pp4_fires,
    determine_classification, lof_genes, hotspot_genes, functional_evidence_genes,
    String.reduceEq, reduceIte, reduceCtorEq, List.map_cons, List.map_nil,
    List.mem_cons, List.not_mem_nil, or_false, false_or, false_and, and_false, if_false]
  norm_num

/-- C6: the classifier is a total function (it is defined for every
variant record and every optional phenotype), and the net-score thresholds
hold: netScore ≥ 8 forces Pathogenic / High / "Immediate clinical action
required", and netScore ≤ -2 forces Likely Benign / Low / "No clinical
action needed". -/
theorem c6_classification_thresholds (v : AcmgVariant) (ph : Option String) :
    ((classify_variant_acmg v ph).total_score ≥ 8 →
      (classify_variant_acmg v ph).classification = "Pathogenic" ∧
      (classify_variant_acmg v ph).confidence = "High" ∧
      (classify_variant_acmg v ph).clinical_action = "Immediate clinical action required") ∧
    ((classify_variant_acmg v ph).total_score ≤ -2 →
      (classify_variant_acmg v ph).classification = "Likely Benign" ∧
      (classify_variant_acmg v ph).confidence = "Low" ∧
      (classify_variant_acmg v ph).clinical_action = "No clinical action needed") := by
  constructor
  · intro h
    rw [classify_classification_eq, classify_confidence_eq, classify_action_eq,
      determine_classification_of_ge8 _ h]
    exact ⟨rfl, rfl, rfl⟩
  · intro h
    rw [classify_classification_eq, classify_confidence_eq, classify_action_eq,
      determine_classification_of_le_neg2 _ h]
    exact ⟨rfl, rfl, rfl⟩

/-- Witness for `c6_classification_thresholds`: a loss-of-function de-novo
MTHFR variant reaches net score 15 (Pathogenic), and the
allele_frequency = 0.32 variant reaches net score -7 (Likely Benign). -/
theorem c6_witness :
    (classify_variant_acmg lof_denovo_variant none).total_score ≥ 8 ∧
    (classify_variant_acmg lof_denovo_variant none).classification = "Pathogenic" ∧
    (classify_variant_acmg freq_only_variant none).total_score ≤ -2 ∧
    (classify_variant_acmg freq_only_variant none).classification = "Likely Benign" := by
  have h1 : (classify_variant_acmg lof_denovo_variant none).total_score ≥ 8 := by
    simp only [classify_variant_acmg, lof_denovo_variant, is_lof_variant,
      is_lof_disease_mechanism, has_damaging_functional_evidence, pp4_fires,
      lof_genes, hotspot_genes, functional_evidence_genes, String.reduceEq, reduceIte,
      reduceCtorEq, Option.some.injEq, List.map_cons, List.map_nil, List.mem_cons,
      List.not_mem_nil, or_false, false_or, false_and, and_false, if_false]
    norm_num
  have h2 : (classify_variant_acmg freq_only_variant none).total_score ≤ -2 := by
    simp only [classify_variant_acmg, freq_only_variant, is_lof_variant,
      is_lof_disease_mechanism, has_damaging_functional_evidence, pp4_fires,
      lof_genes, hotspot_genes, functional_evidence_genes, String.reduceEq, reduceIte,
      reduceCtorEq, List.map_cons, List.map_nil, List.mem_cons,
      List.not_mem_nil, or_false, false_or, false_and, and_false, if_false]
    norm_num
  exact ⟨h1, ((c6_classification_thresholds lof_denovo_variant none).1 h1).1, h2,
    ((c6_classification_thresholds freq_only_variant none).2 h2).1⟩

/-- C10 counterexample: the fully-defaulted variant does fire BP4, but the
allele_frequency default 0 also fires PM2 (0 < 0.001), so the net score is
2 - 1 = 1, not ≤ -1 as claimed. -/
theorem c10_counterexample :
    ¬ (1 ≤ (classify_variant_acmg default_acmg_variant none).benign_score ∧
        (classify_variant_acmg default_acmg_variant none).total_score ≤ -1) := by
  have ht : (classify_variant_acmg default_acmg_variant none).total_score = 1 := by
    simp only [classify_variant_acmg, default_acmg_variant, is_lof_variant,
      is_lof_disease_mechanism, has_damaging_functional_evidence, pp4_fires,
      lof_genes, hotspot_genes, functional_evidence_genes, String.reduceEq, reduceIte,
      reduceCtorEq, List.map_cons, List.map_nil, List.mem_cons,
      List.not_mem_nil, or_false, false_or, false_and, and_false, if_false]
    norm_num
  intro h
  rw [ht] at h
  omega

/-- C10 amended: the fully-defaulted variant fires PM2 (frequency default
0 is < 0.001) and BP4 (cadd default 0 < 5 and sift default 1 > 0.5), so a
completely unknown variant is never classified with an empty criteria set:
benignScore = 1, pathogenicScore = 2, netScore = 1, and the classification
is "Benign" with confidence "High" (not a neutral zero-evidence result). -/
theorem c10_amended :
    (classify_variant_acmg default_acmg_variant none).criteria_met = ["PM2", "BP4"] ∧
    (classify_variant_acmg default_acmg_variant none).criteria_met ≠ [] ∧
    (classify_variant_acmg default_acmg_variant none).benign_score = 1 ∧
    (classify_variant_acmg default_acmg_variant none).pathogenic_score = 2 ∧
    (classify_variant_acmg default_acmg_variant none).total_score = 1 ∧
    (classify_variant_acmg default_acmg_variant none).classification = "Benign" ∧
    (classify_variant_acmg default_acmg_variant none).confidence = "High" := by
  have hc : (classify_variant_acmg default_acmg_variant none).criteria_met = ["PM2", "BP4"] := by
    simp only [classify_variant_acmg, default_acmg_variant, is_lof_variant,
      is_lof_disease_mechanism, has_damaging_functional_evidence, pp4_fires,
      lof_genes, hotspot_genes, functional_evidence_genes, String.reduceEq, reduceIte,
      reduceCtorEq, List.map_cons, List.map_nil, List.mem_cons,
      List.not_mem_nil, or_false, false_or, false_and, and_false, if_false]
    norm_num
  refine ⟨hc, by rw [hc]; decide, ?_, ?_, ?_, ?_, ?_⟩ <;>
  · simp only [classify_variant_acmg, default_acmg_variant, is_lof_variant,
      is_lof_disease_mechanism, has_damaging_functional_evidence, pp4_fires,
      determine_classification, lof_genes, hotspot_genes, functional_evidence_genes,
      String.reduceEq, reduceIte, reduceCtorEq, List.map_cons, List.map_nil, List.mem_cons,
      List.not_mem_nil, or_false, false_or, false_and, and_false, if_false]
    norm_num

/-- Witness for `c5_effect_size_monotone`: raising the scenario variant's
effect size from 0.15 to 0.25 does not decrease the score. -/
theorem c5_effect_size_monotone_witness :
    mthfr_variant.p_value ≤ 1/20 ∧ mthfr_variant.effect_size ≤ 1/4 ∧
    ((calculate_polygenic_risk_score (fun _ => 1/2) (fun _ => 1)
          ([] ++ mthfr_variant :: []) "cardiovascular_disease" "European").score ≤
        (calculate_polygenic_risk_score (fun _ => 1/2) (fun _ => 1)
          ([] ++ { mthfr_variant with effect_size := 1/4 } :: [])
          "cardiovascular_disease" "European").score ∧
      (prs_totals ([] ++ { mthfr_variant with effect_size := 1/4 } :: [])
          "cardiovascular_disease" "European").2 =
        (prs_totals ([] ++ mthfr_variant :: []) "cardiovascular_disease" "European").2) :=
  ⟨by norm_num [mthfr_variant], by norm_num [mthfr_variant],
    c5_effect_size_monotone (fun _ => 1/2) (fun _ => 1) [] [] mthfr_variant (1/4)
      "cardiovascular_disease" "European" (by norm_num [mthfr_variant])
      (by norm_num [mthfr_variant])⟩

/-! ## `ml_algorithms.py`: rare variant burden -/

/-- A variant dict as consumed by `calculate_rare_variant_burden`;
`frequency` and `pathogenicity` defaults are the `.get` defaults (0.5 and
0), `effect_size` default 0. -/
structure BurdenVariant where
  gene : Option String := none
  frequency : Option ℚ := none
  pathogenicity : ℚ := 0
  effect_size : ℚ := 0
deriving Repr, DecidableEq

/-- The burden-scores dict returned for a gene with at least one variant. -/
structure RareVariantBurden where
  total_variants : ℕ
  rare_variants : ℕ
  burden_ratio : ℚ
  pathogenic_rare : ℕ
  burden_score : ℚ
deriving Repr, DecidableEq

/-- The rare test `variant.get('frequency', 0.5) < 0.01`. -/
def is_rare (v : BurdenVariant) : Bool := decide (v.frequency.getD (1/2) < 1/100)

/-- `calculate_rare_variant_burden`; the empty dict returned when the gene
has no variants is modelled as `none`. -/
def calculate_rare_variant_burden (variants : List BurdenVariant) (gene : String) :
    Option RareVariantBurden :=
  let gene_variants := variants.filter (fun v => v.gene == some gene)
  if gene_variants.isEmpty then none
  else
    let rare := gene_variants.filter is_rare
    some { total_variants := gene_variants.length
           rare_variants := rare.length
           burden_ratio := (rare.length : ℚ) / (gene_variants.length : ℚ)
           pathogenic_rare := (rare.filter (fun v => decide (v.pathogenicity > 7/10))).length
           burden_score := (rare.map BurdenVariant.effect_size).sum }

/-! ## Claim C8 -/

/-- C8: for a gene with at least one variant, the burden result exists,
its ratio lies in [0, 1], rare count never exceeds total count, a variant
is rare exactly when its (defaulted) frequency is < 0.01, and the burden
score sums effect sizes over rare variants only. -/
theorem c8_burden_bounds (variants : List BurdenVariant) (gene : String)
    (h : ∃ v ∈ variants, v.gene = some gene) :
    ∃ b, calculate_rare_variant_burden variants gene = some b ∧
      0 ≤ RareVariantBurden.burden_ratio b ∧ RareVariantBurden.burden_ratio b ≤ 1 ∧
      b.rare_variants ≤ b.total_variants ∧
      b.total_variants = (variants.filter (fun v => v.gene == some gene)).length ∧
      b.rare_variants =
        ((variants.filter (fun v => v.gene == some gene)).filter is_rare).length ∧
      b.burden_score =
        (((variants.filter (fun v => v.gene == some gene)).filter is_rare).map
          BurdenVariant.effect_size).sum := by
  obtain ⟨v, hv, hg⟩ := h
  have hmem : v ∈ variants.filter (fun v => v.gene == some gene) :=
    List.mem_filter.mpr ⟨hv, by simp [hg]⟩
  have hnil : variants.filter (fun v => v.gene == some gene) ≠ [] :=
    List.ne_nil_of_mem hmem
  have hne : ¬ ((variants.filter (fun v => v.gene == some gene)).isEmpty = true) := by
    simpa [List.isEmpty_iff] using hnil
  have hpos : 0 < (variants.filter (fun v => v.gene == some gene)).length :=
    List.length_pos.mpr hnil
  refine ⟨{ total_variants := (variants.filter (fun v => v.gene == some gene)).length
            rare_variants :=
              ((variants.filter (fun v => v.gene == some gene)).filter is_rare).length
            burden_ratio :=
              (((variants.filter (fun v => v.gene == some gene)).filter is_rare).length : ℚ) /
                ((variants.filter (fun v => v.gene == some gene)).length : ℚ)
            pathogenic_rare :=
              (((variants.filter (fun v => v.gene == some gene)).filter is_rare).filter
                (fun v => decide (v.pathogenicity > 7/10))).length
            burden_score :=
              (((variants.filter (fun v => v.gene == some gene)).filter is_rare).map
                BurdenVariant.effect_size).sum },
    ?_, ?_, ?_, ?_, rfl, rfl, rfl⟩
  · unfold calculate_rare_variant_burden
    rw [if_neg hne]
  · exact div_nonneg (Nat.cast_nonneg _) (Nat.cast_nonneg _)
  · rw [div_le_one (by exact_mod_cast hpos)]
    exact_mod_cast List.length_filter_le is_rare (variants.filter (fun v => v.gene == some gene))
  · exact List.length_filter_le is_rare (variants.filter (fun v => v.gene == some gene))

/-- The two-variant list of the spec's burden scenario: one rare MTHFR
variant (frequency 0.005, effect size 0.2) and one common one (0.3). -/
def burden_scenario : List BurdenVariant :=
  [{ gene := some "MTHFR", frequency := some (1/200), effect_size := 1/5 },
   { gene := some "MTHFR", frequency := some (3/10) }]

/-- Witness for `c8_burden_bounds` on the concrete two-variant scenario. -/
theorem c8_burden_bounds_witness :
    (∃ v ∈ burden_scenario, BurdenVariant.gene v = some "MTHFR") ∧
    ∃ b, calculate_rare_variant_burden burden_scenario "MTHFR" = some b ∧
      0 ≤ RareVariantBurden.burden_ratio b ∧ RareVariantBurden.burden_ratio b ≤ 1 ∧
      b.rare_variants ≤ b.total_variants ∧
      b.total_variants = (burden_scenario.filter (fun v => v.gene == some "MTHFR")).length ∧
      b.rare_variants =
        ((burden_scenario.filter (fun v => v.gene == some "MTHFR")).filter is_rare).length ∧
      b.burden_score =
        (((burden_scenario.filter (fun v => v.gene == some "MTHFR")).filter is_rare).map
          BurdenVariant.effect_size).sum :=
  ⟨⟨{ gene := some "MTHFR", frequency := some (1/200), effect_size := 1/5 },
      List.mem_cons_self _ _, rfl⟩,
    c8_burden_bounds burden_scenario "MTHFR"
      ⟨{ gene := some "MTHFR", frequency := some (1/200), effect_size := 1/5 },
        List.mem_cons_self _ _, rfl⟩⟩

/-! ## `dna_analyzer.py`: health-risk assembly from GWAS records -/

/-- A GWAS association record as consumed by `_analyze_health_risks`. -/
structure GwasRecord where
  trait : String
  p_value : ℚ
  effect_size : ℚ
deriving Repr, DecidableEq

/-- Python dict assignment `risks[key] = value` on an insertion-ordered
association-list model of the dict (keys are unique by construction):
replace in place if the key exists, else append at the end. -/
def dict_insert {α : Type} : List (String × α) → String → α → List (String × α)
  | [], k, q => [(k, q)]
  | p :: rest, k, q => if p.1 = k then (k, q) :: rest else p :: dict_insert rest k q

/-- Python dict lookup `risks.get(key)`. -/
def dict_get {α : Type} : List (String × α) → String → Option α
  | [], _ => none
  | p :: rest, k => if p.1 = k then some p.2 else dict_get rest k

/-- One iteration of the GWAS loop of `_analyze_health_risks`: tiers on the
p-value write `min(|effect| × factor, cap)` for the record's trait; a
record at or above the 1e-3 tier writes nothing. -/
def gwas_step (risks : List (String × ℚ)) (r : GwasRecord) : List (String × ℚ) :=
  if r.p_value < 5e-8 then dict_insert risks r.trait (min (|r.effect_size| * 3) (19/20))
  else if r.p_value < 1e-5 then dict_insert risks r.trait (min (|r.effect_size| * 2) (7/10))
  else if r.p_value < 1e-3 then dict_insert risks r.trait (min (|r.effect_size| * (3/2)) (1/2))
  else risks

/-- The whole GWAS loop folded over the association records. -/
def apply_gwas (risks : List (String × ℚ)) (records : List GwasRecord) : List (String × ℚ) :=
  records.foldl gwas_step risks

/-- Dict semantics: after `risks[k] = q`, looking up `k` yields `q`. -/
theorem dict_get_insert {α : Type} (m : List (String × α)) (k : String) (q : α) :
    dict_get (dict_insert m k q) k = some q := by
  induction m with
  | nil => simp [dict_insert, dict_get]
  | cons p rest ih =>
    by_cases h : p.1 = k
    · simp [dict_insert, dict_get, h]
    · simp [dict_insert, dict_get, h, ih]

/-! ## Claim C7 -/

/-- C7: during health-risk assembly, every processed GWAS record with
pValue < 5e-8 sets its trait's risk to min(|effect|×3, 0.95), one with
5e-8 ≤ pValue < 1e-5 to min(|effect|×2, 0.7), one with 1e-5 ≤ pValue <
1e-3 to min(|effect|×1.5, 0.5), and any other record writes nothing; the
value read after the whole loop is the last writing record's value
(last-write-wins) regardless of the earlier records and the initial map. -/
theorem c7_gwas_risk_tiers (risks : List (String × ℚ)) (l : List GwasRecord) (r : GwasRecord) :
    (r.p_value < 5e-8 →
      dict_get (apply_gwas risks (l ++ [r])) r.trait =
        some (min (|r.effect_size| * 3) (19/20))) ∧
    (¬ r.p_value < 5e-8 → r.p_value < 1e-5 →
      dict_get (apply_gwas risks (l ++ [r])) r.trait =
        some (min (|r.effect_size| * 2) (7/10))) ∧
    (¬ r.p_value < 1e-5 → r.p_value < 1e-3 →
      dict_get (apply_gwas risks (l ++ [r])) r.trait =
        some (min (|r.effect_size| * (3/2)) (1/2))) ∧
    (¬ r.p_value < 1e-3 → apply_gwas risks (l ++ [r]) = apply_gwas risks l) := by
  have hfold : apply_gwas risks (l ++ [r]) = gwas_step (apply_gwas risks l) r := by
    unfold apply_gwas
    rw [List.foldl_append]
    rfl
  refine ⟨?_, ?_, ?_, ?_⟩
  · intro h1
    rw [hfold]
    unfold gwas_step
    rw [if_pos h1]
    exact dict_get_insert _ _ _
  · intro h1 h2
    rw [hfold]
    unfold gwas_step
    rw [if_neg h1, if_pos h2]
    exact dict_get_insert _ _ _
  · intro h2 h3
    have h1 : ¬ r.p_value < 5e-8 := by
      intro hlt
      exact h2 (lt_trans hlt (by norm_num))
    rw [hfold]
    unfold gwas_step
    rw [if_neg h1, if_neg h2, if_pos h3]
    exact dict_get_insert _ _ _
  · intro h3
    have h2 : ¬ r.p_value < 1e-5 := by
      intro hlt
      exact h3 (lt_trans hlt (by norm_num))
    have h1 : ¬ r.p_value < 5e-8 := by
      intro hlt
      exact h2 (lt_trans hlt (by norm_num))
    rw [hfold]
    unfold gwas_step
    rw [if_neg h1, if_neg h2, if_neg h3]

/-- Witness for `c7_gwas_risk_tiers`: a genome-wide-significant record for
"height" overwrites an earlier record for the same trait. -/
theorem c7_gwas_risk_tiers_witness :
    (GwasRecord.p_value { trait := "height", p_value := 1e-9, effect_size := 2/5 } < 5e-8) ∧
    dict_get
        (apply_gwas []
          ([{ trait := "height", p_value := 1e-9, effect_size := 1/10 }] ++
            [{ trait := "height", p_value := 1e-9, effect_size := 2/5 }]))
        (GwasRecord.trait { trait := "height", p_value := 1e-9, effect_size := 2/5 }) =
      some (min (|GwasRecord.effect_size
          { trait := "height", p_value := 1e-9, effect_size := 2/5 }| * 3) (19/20)) :=
  ⟨by norm_num,
    (c7_gwas_risk_tiers [] [{ trait := "height", p_value := 1e-9, effect_size := 1/10 }]
      { trait := "height", p_value := 1e-9, effect_size := 2/5 }).1 (by norm_num)⟩

/-! ## `dna_analyzer.py`: top-level `analyze` -/

/-- The `GeneticVariant` dataclass of `dna_analyzer.py`. -/
structure GeneticVariant where
  chromosome : String := ""
  position : Int := 0
  ref_allele : String := ""
  alt_allele : String := ""
  genotype : String := ""
  quality_score : ℚ := 0
  gene : Option String := none
  rsid : Option String := none
  clinical_significance : Option String := none
deriving Repr, DecidableEq

/-- A ClinVar record as consumed by `_analyze_health_risks`. -/
structure ClinVarRecord where
  condition : String
  clinical_significance : String
deriving Repr, DecidableEq

/-- One iteration of the ClinVar loop of `_analyze_health_risks`
(significance tiers use Python substring tests). -/
def clinvar_step (risks : List (String × ℚ)) (cv : ClinVarRecord) : List (String × ℚ) :=
  if str_in "Pathogenic" cv.clinical_significance ||
      str_in "Likely pathogenic" cv.clinical_significance then
    dict_insert risks cv.condition (9/10)
  else if str_in "Risk factor" cv.clinical_significance ||
      str_in "Likely risk factor" cv.clinical_significance then
    dict_insert risks cv.condition (3/5)
  else if str_in "Uncertain significance" cv.clinical_significance then
    dict_insert risks cv.condition (3/10)
  else if str_in "Likely benign" cv.clinical_significance ||
      str_in "Benign" cv.clinical_significance then
    dict_insert risks cv.condition (1/10)
  else risks

/-- One iteration of the known-variant fallback loop of
`_analyze_health_risks`. -/
def fallback_step (risks : List (String × ℚ)) (v : GeneticVariant) : List (String × ℚ) :=
  match v.rsid with
  | some "rs1801133" =>
      dict_insert risks "Methylenetetrahydrofolate reductase deficiency" (4/5)
  | some "rs429358" => dict_insert risks "Alzheimer disease" (2/5)
  | some "rs7412" => dict_insert risks "Alzheimer disease" (3/10)
  | some "rs1799853" => dict_insert risks "Warfarin sensitivity" (7/10)
  | some "rs4244285" => dict_insert risks "Clopidogrel resistance" (3/5)
  | some "rs1057910" => dict_insert risks "Warfarin metabolism" (1/2)
  | some "rs4986893" => dict_insert risks "Clopidogrel metabolism" (3/5)
  | some "rs28399504" => dict_insert risks "Clopidogrel metabolism" (1/2)
  | some "rs41291556" => dict_insert risks "Clopidogrel metabolism" (1/2)
  | _ => risks

/-- `_analyze_health_risks`: ClinVar tier map, known-variant fallback when
the ClinVar pass produced nothing, then the GWAS augmentation loop. -/
def analyze_health_risks (variants : List GeneticVariant) (clinvar : List ClinVarRecord)
    (gwas : List GwasRecord) : List (String × ℚ) :=
  let risks0 := clinvar.foldl clinvar_step []
  let risks1 :=
    if risks0.isEmpty && !variants.isEmpty then variants.foldl fallback_step []
    else risks0
  apply_gwas risks1 gwas

/-- `_analyze_nutrition`. -/
def analyze_nutrition (variants : List GeneticVariant) : List (String × String) :=
  variants.foldl
    (fun recs v =>
      match v.gene with
      | some "MTHFR" =>
          dict_insert
            (dict_insert recs "Folate" "High dose folate supplementation recommended")
            "B12" "B12 levels should be monitored"
      | some "APOE" => dict_insert recs "Fat" "Low-fat diet recommended for APOE4 carriers"
      | _ => recs)
    []

/-- `_calculate_confidence_score`: mean quality score / 100, capped at 1. -/
def calculate_confidence_score (variants : List GeneticVariant) : ℚ :=
  if variants.isEmpty then 0
  else min ((variants.map GeneticVariant.quality_score).sum / (variants.length : ℚ) / 100) 1

/-- `_perform_clinical_validation`'s per-variant dict construction (fixed
defaults allele_frequency 0.1, cadd 15.0, sift 0.02, damaging evidence)
followed by ACMG classification with phenotype "cardiovascular disease". -/
def perform_clinical_validation (variants : List GeneticVariant) : List ACMGClassification :=
  variants.map (fun v =>
    classify_variant_acmg
      { rsid := v.rsid, gene := v.gene, allele_frequency := 1/10, cadd_score := 15,
        sift_score := 1/50, func_damaging := true }
      (some "cardiovascular disease"))

/-- The dict returned by `_perform_ml_analysis` (empty on failure). -/
structure MlResults where
  pathways : List (String × ℚ) := []
  interactions : List (String × String) := []
  rare_variants : List (String × Option RareVariantBurden) := []
deriving Repr, DecidableEq

/-- `try: ... except: return default` around a sub-analysis. -/
def catchD {α : Type} (x : Except String α) (d : α) : α :=
  match x with
  | Except.ok a => a
  | Except.error _ => d

/-- The assembled `AnalysisResult` (restricted to the fields the claims
touch; timestamps and the remaining per-gene lookup maps are omitted). -/
structure AnalysisResultM where
  variant_count : ℕ
  analyzed_genes : List String
  health_risks : List (String × ℚ)
  nutrition_recommendations : List (String × String)
  confidence_score : ℚ
  clinical_classifications : List ACMGClassification
  advanced_databases : List (String × String)
  ml_predictions : MlResults
  population_results : List (String × String)
deriving Repr, DecidableEq

/-- `analyze`: hard `ValueError` guard when no variants are loaded, then
assembly.  The sub-analyses that wrap external resources (advanced
databases, the ML pass, population analysis) are passed in as possibly
failing computations and caught exactly as the Python `try/except` blocks
do (returning the empty default), so a failing sub-analysis can never
escape `analyze`. -/
def analyze (variants : List GeneticVariant) (clinvar : List ClinVarRecord)
    (gwas : List GwasRecord) (advanced_db : Except String (List (String × String)))
    (ml_results : Except String MlResults)
    (population_results : Except String (List (String × String))) :
    Except String AnalysisResultM :=
  if variants.isEmpty then Except.error "Önce DNA verisini yükleyin"
  else Except.ok
    { variant_count := variants.length
      analyzed_genes := (variants.filterMap GeneticVariant.gene).dedup
      health_risks := analyze_health_risks variants clinvar gwas
      nutrition_recommendations := analyze_nutrition variants
      confidence_score := calculate_confidence_score variants
      clinical_classifications := perform_clinical_validation variants
      advanced_databases := catchD advanced_db []
      ml_predictions := catchD ml_results {}
      population_results := catchD population_results [] }

/-! ## Claim C9 -/

/-- C9: `analyze` surfaces the hard "no variants" error exactly when the
variant set is empty; on every non-empty variant set it returns a result,
for arbitrary outcomes (including failures) of the external sub-analyses,
whose errors are caught and replaced by empty defaults. -/
theorem c9_analyze_error_iff_empty (variants : List GeneticVariant)
    (clinvar : List ClinVarRecord) (gwas : List GwasRecord)
    (advanced_db : Except String (List (String × String)))
    (ml_results : Except String MlResults)
    (population_results : Except String (List (String × String))) :
    (analyze variants clinvar gwas advanced_db ml_results population_results =
        Except.error "Önce DNA verisini yükleyin" ↔ variants = []) ∧
    (variants ≠ [] →
      ∃ r, analyze variants clinvar gwas advanced_db ml_results population_results =
        Except.ok r) := by
  constructor
  · constructor
    · intro h
      by_cases he : variants.isEmpty
      · exact List.isEmpty_iff.mp he
      · unfold analyze at h
        rw [if_neg he] at h
        exact absurd h (by simp)
    · intro h
      unfold analyze
      rw [if_pos (by simp [h])]
  · intro hne
    unfold analyze
    rw [if_neg (by simpa [List.isEmpty_iff] using hne)]
    exact ⟨_, rfl⟩

/-- A loaded variant for the `analyze` witness. -/
def sample_variant : GeneticVariant :=
  { rsid := some "rs1801133", gene := some "MTHFR", genotype := "GG", quality_score := 90 }

/-- Witness for `c9_analyze_error_iff_empty`: the empty variant set raises
the hard error, and one loaded variant yields a result even when every
external sub-analysis fails. -/
theorem c9_analyze_error_iff_empty_witness :
    analyze [] [] [] (Except.error "down") (Except.error "down") (Except.error "down") =
      Except.error "Önce DNA verisini yükleyin" ∧
    ([sample_variant] ≠ []) ∧
    ∃ r, analyze [sample_variant] [] [] (Except.error "down") (Except.error "down")
        (Except.error "down") = Except.ok r :=
  ⟨(c9_analyze_error_iff_empty [] [] [] (Except.error "down") (Except.error "down")
      (Except.error "down")).1.mpr rfl,
    List.cons_ne_nil _ _,
    (c9_analyze_error_iff_empty [sample_variant] [] [] (Except.error "down")
      (Except.error "down") (Except.error "down")).2 (List.cons_ne_nil _ _)⟩

end DnaAnalysis
